import Mathlib

/-!
Shallow embedding of the `xmlschema` crate (src/lib.rs) over `List Char`,
together with theorems settling the specification claims.

The source parser holds `input : &str` and `position : usize`; `next_char`
reads `input.chars().nth(position)` and always increments `position`.  For
ASCII input this is exactly "pop the head of the remaining character list",
so the embedding threads the remaining list of characters instead of an
absolute index.  The only places the source uses the absolute position are
the two literal-keyword slices `input[position-1 .. position-1+4]` and
`input[position-1 .. position-1+8]`, both starting at the character that was
just read; with remaining list `r` after reading `c` these slices are
`c :: r.take 3` and `c :: r.take 7`, in bounds iff `3 ≤ r.length`
(resp. `7 ≤ r.length`).  A Rust out-of-bounds slice panics; the embedding
models that outcome with the explicit result `crash`.
-/

namespace Xsd

/-- Scalar datatype enumeration (enum `SimpleDatatype`, lib.rs 68-75). -/
inductive SimpleDatatype where
  | Boolean | Decimal | Double | Float | Integer | String
deriving DecidableEq, Repr

/-- Canonical lowercase rendering (impl `Display for SimpleDatatype`, lib.rs 924-935). -/
def SimpleDatatype.render : SimpleDatatype → List Char
  | .Boolean => ("boolean").data
  | .Decimal => ("decimal").data
  | .Double  => ("double").data
  | .Float   => ("float").data
  | .Integer => ("integer").data
  | .String  => ("string").data

/-- Datatype reference (enum `Datatype`, lib.rs 39-44): an unresolved name. -/
inductive Datatype where
  | SimpleType (r : List Char)
  | ComplexType (r : List Char)
deriving DecidableEq, Repr

/-- `use` flag (enum `UseOption`, lib.rs 56-59). -/
inductive UseOption where
  | Required | Optional
deriving DecidableEq, Repr

/-- struct `Attribute`, lib.rs 47-53. -/
structure Attribute where
  name : List Char
  datatype : Datatype
  default_value : Option (List Char)
  fixed_value : Option (List Char)
  use_option : UseOption
deriving DecidableEq, Repr

/-- struct `Element`, lib.rs 27-36 (`max_occurs`/`min_occurs` are `u32`;
they are only ever set to 1, so `Nat` is an exact model here). -/
structure Element where
  name : List Char
  datatype : Datatype
  max_occurs : Nat
  min_occurs : Nat
deriving DecidableEq, Repr

/-- struct `SimpleType`, lib.rs 62-65. -/
structure SimpleType where
  name : List Char
  datatype : SimpleDatatype
deriving DecidableEq, Repr

/-- Content-model tag (enum `ComplexContent`, lib.rs 87-98). -/
inductive ComplexContent where
  | All | Choice | Empty | Element | Group | Sequence
  | SimpleContent | Union | MixedContent | ComplexContentExtension
deriving DecidableEq, Repr

/-- struct `ComplexType`, lib.rs 78-84.  The `attributes : HashMap` is
modelled as an association list; the parser only ever produces the empty
map, so the representation choice is immaterial. -/
structure ComplexType where
  name : List Char
  base_type : Option (List Char)
  attributes : List (List Char × Attribute)
  content : ComplexContent
  mixed_content : Option (List Char)
deriving DecidableEq, Repr

/-- struct `SimpleContent`, lib.rs 101-103. -/
structure SimpleContent where
  datatype : SimpleDatatype
deriving DecidableEq, Repr

/-- struct `ComplexContentExtension`, lib.rs 106-109. -/
structure ComplexContentExtension where
  base_type : List Char
  attributes : List (List Char × Attribute)
deriving DecidableEq, Repr

/-- Node union (enum `XmlSchemaNode`, lib.rs 7-16). -/
inductive XmlSchemaNode where
  | Attribute (a : Attribute)
  | ComplexType (c : ComplexType)
  | Element (e : Element)
  | SimpleType (s : SimpleType)
deriving DecidableEq, Repr

/-- struct `XmlSchema`, lib.rs 19-24. -/
structure XmlSchema where
  target_namespace : Option (List Char)
  element_form_default : Option (List Char)
  attribute_form_default : Option (List Char)
  nodes : List XmlSchemaNode
deriving DecidableEq, Repr

/-- Outcome of running a parser function on the remaining input:
`ok a rest` models `Ok(a)` with `rest` the characters not yet consumed,
`err msg` models `Err(msg)`, `crash` models a Rust out-of-bounds slice
panic, and `diverge` is the fuel-exhaustion marker of the fueled loops
(shown unreachable wherever a theorem needs it). -/
inductive PRes (α : Type) where
  | ok (a : α) (rest : List Char)
  | err (msg : List Char)
  | crash
  | diverge
deriving DecidableEq, Repr

/-- Sequencing of parser outcomes (models Rust `?` propagation). -/
def PRes.bind {α β : Type} : PRes α → (α → List Char → PRes β) → PRes β
  | .ok a r, f => f a r
  | .err m, _ => .err m
  | .crash, _ => .crash
  | .diverge, _ => .diverge

/-- Loop of `parse_tag_name` (lib.rs 269-279): accumulate until `>` or a
space, both consumed; input exhaustion also ends the loop.  The identical
inline name-accumulation loops of `parse_element` (368-374),
`parse_attribute` (418-424), `parse_simple_type` (466-472) and
`parse_complex_type` (585-591) are modelled by this same function. -/
def tagNameLoop : List Char → List Char → List Char × List Char
  | acc, [] => (acc, [])
  | acc, c :: r =>
    if c = '>' then (acc, r)
    else if c = ' ' then (acc, r)
    else tagNameLoop (acc ++ [c]) r

/-- fn `parse_tag_name`, lib.rs 269-279 (always `Ok` in the source). -/
def parse_tag_name (s : List Char) : PRes (List Char) :=
  let p := tagNameLoop [] s
  .ok p.1 p.2

/-- Inner quoted-value loop of `parse_optional_attr_value`
(lib.rs 317-322): accumulate until the closing `"`. -/
def attrQuoteLoop : List Char → List Char → List Char × List Char
  | acc, [] => (acc, [])
  | acc, c :: r =>
    if c = '"' then (acc, r)
    else attrQuoteLoop (acc ++ [c]) r

/-- Outer loop of `parse_optional_attr_value` (lib.rs 310-333): scan until
`>`, space, or `"`; on `"` capture up to the matching quote; an empty
captured value yields `none`. -/
def attrValueLoop : List Char → Option (List Char) × List Char
  | [] => (none, [])
  | c :: r =>
    if c = '>' then (none, r)
    else if c = ' ' then (none, r)
    else if c = '"' then
      let p := attrQuoteLoop [] r
      (if p.1 = [] then none else some p.1, p.2)
    else attrValueLoop r

/-- fn `parse_optional_attr_value`, lib.rs 310-333.  The `attr_name`
argument is present in the source signature but never read by the body;
the embedding keeps the (ignored) parameter. -/
def parse_optional_attr_value (attr_name : List Char) (s : List Char) :
    Option (List Char) × List Char :=
  attrValueLoop s

/-- Skip-to-`>`-or-space loops: lib.rs 375-381 (`parse_element`),
425-431 (`parse_attribute`), 815-821 (`parse_simple_content`),
895-901 (`parse_complex_content_extension`). -/
def skipGtSp : List Char → List Char
  | [] => []
  | c :: r =>
    if c = '>' then r
    else if c = ' ' then r
    else skipGtSp r

/-- Skip-to-`<` loops: lib.rs 473-478 (`parse_simple_type`) and
853-858 (`parse_simple_content`). -/
def skipToLt : List Char → List Char
  | [] => []
  | c :: r => if c = '<' then r else skipToLt r

/-- Skip-to-`>` loops used by the mixed-content branches of
`parse_complex_type` (lib.rs 606-610 and 627-631). -/
def skipToGt : List Char → List Char
  | [] => []
  | c :: r => if c = '>' then r else skipToGt r

/-- fn `parse_element`, lib.rs 361-383: raw name token, then the rest of
the opening tag is discarded; occurrence bounds and datatype keep their
defaults. -/
def parse_element (s : List Char) : PRes Element :=
  let p := tagNameLoop [] s
  let r2 := skipGtSp p.2
  .ok { name := p.1, datatype := .SimpleType [], max_occurs := 1, min_occurs := 1 } r2

/-- fn `parse_attribute`, lib.rs 410-433. -/
def parse_attribute (s : List Char) : PRes Attribute :=
  let p := tagNameLoop [] s
  let r2 := skipGtSp p.2
  .ok { name := p.1, datatype := .SimpleType [], default_value := none,
        fixed_value := none, use_option := .Optional } r2

/-- Datatype-name match of `parse_simple_type` (lib.rs 490-498) and
`parse_simple_content` (lib.rs 834-842); an unrecognized name is the
`Unsupported datatype` error at the call sites. -/
def scalarOfName (n : List Char) : Option SimpleDatatype :=
  if n = ("boolean").data then some .Boolean
  else if n = ("decimal").data then some .Decimal
  else if n = ("double").data then some .Double
  else if n = ("float").data then some .Float
  else if n = ("integer").data then some .Integer
  else if n = ("string").data then some .String
  else none

/-- Loop of `parse_datatype_name` (lib.rs 537-548): skip `:`, stop at `>`
or space. -/
def datatypeNameLoop : List Char → List Char → List Char × List Char
  | acc, [] => (acc, [])
  | acc, c :: r =>
    if c = ':' then datatypeNameLoop acc r
    else if c = '>' then (acc, r)
    else if c = ' ' then (acc, r)
    else datatypeNameLoop (acc ++ [c]) r

/-- fn `parse_datatype_name`, lib.rs 537-548 (always `Ok` in the source). -/
def parse_datatype_name (s : List Char) : PRes (List Char) :=
  let p := datatypeNameLoop [] s
  .ok p.1 p.2

/-- Keyword-detection loop shared verbatim by `parse_simple_type`
(lib.rs 480-506) and `parse_simple_content` (lib.rs 824-850).  The local
`datatype` variable (initialized to `String` before the loop) is the `dt`
parameter.  On reading `s` the source compares the four-byte slice
beginning at the `s` itself against the literal `type`; the slice is
`'s' :: r.take 3`, out of bounds (Rust panic, modelled by `crash`) when
`r.length < 3`.  On a (never attainable) match it discards the next quoted
value, reads the datatype name and maps it through the scalar match;
reaching end of input is the `Unexpected end of input` error. -/
def stDetectLoop : List Char → SimpleDatatype → PRes SimpleDatatype
  | [], _ => .err (("Unexpected end of input").data)
  | c :: r, dt =>
    if c = '>' then .ok dt r
    else if c = ' ' then stDetectLoop r dt
    else if c = 's' then
      if 3 ≤ r.length then
        if 's' :: r.take 3 = ("type").data then
          let p := parse_optional_attr_value (("type").data) r
          let q := datatypeNameLoop [] p.2
          match scalarOfName q.1 with
          | some dt2 => .ok dt2 q.2
          | none => .err (("Unsupported datatype").data)
        else stDetectLoop r dt
      else .crash
    else stDetectLoop r dt

/-- fn `parse_simple_type`, lib.rs 461-509: name token, skip to the first
`<`, then the keyword-detection loop. -/
def parse_simple_type (s : List Char) : PRes SimpleType :=
  let p := tagNameLoop [] s
  let r2 := skipToLt p.2
  (stDetectLoop r2 .String).bind fun dt r3 =>
    .ok { name := p.1, datatype := dt } r3

/-- fn `parse_simple_content`, lib.rs 810-861: skip the opening tag, run
the keyword-detection loop, then skip to the next `<`. -/
def parse_simple_content (s : List Char) : PRes SimpleContent :=
  let r1 := skipGtSp s
  (stDetectLoop r1 .String).bind fun dt r2 =>
    .ok { datatype := dt } (skipToLt r2)

/-- Base-type loop of `parse_complex_content_extension` (lib.rs 903-919):
skip spaces; on `b` compare the eight-byte slice beginning at the `b`
against `base="xs` (out of bounds when fewer than 7 characters remain);
on a match read the datatype name as the base type, otherwise fail with
`Unexpected character`. -/
def cceLoop : List Char → PRes ComplexContentExtension
  | [] => .ok { base_type := [], attributes := [] } []
  | c :: r =>
    if c = ' ' then cceLoop r
    else if c = 'b' then
      if 7 ≤ r.length then
        if 'b' :: r.take 7 = ("base=\"xs").data then
          let q := datatypeNameLoop [] r
          .ok { base_type := q.1, attributes := [] } q.2
        else .err (("Unexpected character: ").data ++ [c])
      else .crash
    else .err (("Unexpected character: ").data ++ [c])

/-- fn `parse_complex_content_extension`, lib.rs 889-921 (never invoked by
the rest of the parser). -/
def parse_complex_content_extension (s : List Char) : PRes ComplexContentExtension :=
  cceLoop (skipGtSp s)

/-- Child loop of `parse_complex_type` (lib.rs 593-643).  The record `ct`
is the `complex_type` local being mutated; every branch only updates its
`content` field.  The `xs:mixedContent` branch and the
`xs:complexType mixed="true"` self-tag branch skip to the next `>` and
leave the loop; an unrecognized tag or a stray non-space character is an
error.  Fueled because the `<`-branch resumes after a sub-scan. -/
def ctContentLoop : Nat → List Char → ComplexType → PRes ComplexType
  | 0, _, _ => .diverge
  | fuel + 1, s, ct =>
    match s with
    | [] => .ok ct []
    | c :: r =>
      if c = '<' then
        (parse_tag_name r).bind fun tag r2 =>
          if tag = ("xs:simpleContent").data then
            ctContentLoop fuel r2 { ct with content := .SimpleContent }
          else if tag = ("xs:complexContent").data then
            ctContentLoop fuel r2 { ct with content := .ComplexContentExtension }
          else if tag = ("xs:mixedContent").data then
            .ok { ct with content := .MixedContent } (skipToGt r2)
          else if tag = ("xs:sequence").data then
            ctContentLoop fuel r2 { ct with content := .Sequence }
          else if tag = ("xs:choice").data then
            ctContentLoop fuel r2 { ct with content := .Choice }
          else if tag = ("xs:all").data then
            ctContentLoop fuel r2 { ct with content := .All }
          else if tag = ("xs:complexType").data then
            let p := parse_optional_attr_value (("mixed").data) r2
            if p.1 = some (("true").data) then
              .ok { ct with content := .MixedContent } (skipToGt p.2)
            else .err (("Unexpected tag: ").data ++ tag)
          else .err (("Unexpected tag: ").data ++ tag)
      else if c = ' ' then ctContentLoop fuel r ct
      else if c = '>' then .ok ct r
      else .err (("Unexpected character: ").data ++ [c])

/-- fn `parse_complex_type`, lib.rs 576-646: name token, then the child
loop on the fields-initialized record. -/
def parse_complex_type (s : List Char) : PRes ComplexType :=
  let p := tagNameLoop [] s
  ctContentLoop (p.2.length + 1) p.2
    { name := p.1, base_type := none, attributes := [], content := .Empty,
      mixed_content := none }

/-- Shared child loop of `parse_sequence` (lib.rs 648-675), `parse_choice`
(lib.rs 702-729) and `parse_all` (lib.rs 756-783), whose three bodies are
textually identical.  None of the three is invoked by `parse_complex_type`
or the top-level `parse`. -/
def particleLoop : Nat → List Char → List XmlSchemaNode → PRes (List XmlSchemaNode)
  | 0, _, _ => .diverge
  | fuel + 1, s, nodes =>
    match s with
    | [] => .ok nodes []
    | c :: r =>
      if c = '<' then
        (parse_tag_name r).bind fun tag r2 =>
          if tag = ("xs:element").data then
            (parse_element r2).bind fun e r3 =>
              particleLoop fuel r3 (nodes ++ [.Element e])
          else if tag = ("xs:complexType").data then
            (parse_complex_type r2).bind fun ctv r3 =>
              particleLoop fuel r3 (nodes ++ [.ComplexType ctv])
          else if tag = ("xs:simpleType").data then
            (parse_simple_type r2).bind fun st r3 =>
              particleLoop fuel r3 (nodes ++ [.SimpleType st])
          else .err (("Unexpected tag: ").data ++ tag)
      else if c = ' ' then particleLoop fuel r nodes
      else if c = '>' then .ok nodes r
      else .err (("Unexpected character: ").data ++ [c])

/-- fn `parse_sequence`, lib.rs 648-675. -/
def parse_sequence (s : List Char) : PRes (List XmlSchemaNode) :=
  particleLoop (s.length + 1) s []

/-- fn `parse_choice`, lib.rs 702-729. -/
def parse_choice (s : List Char) : PRes (List XmlSchemaNode) :=
  particleLoop (s.length + 1) s []

/-- fn `parse_all`, lib.rs 756-783. -/
def parse_all (s : List Char) : PRes (List XmlSchemaNode) :=
  particleLoop (s.length + 1) s []

/-- Dispatch loop of fn `parse` (lib.rs 164-200): on `<` read the tag name
and dispatch on the five recognized root tags; `xs:schema` runs the three
sequential optional-attribute scans; any other tag is the `Unexpected tag`
error; non-`<` characters are skipped. -/
def parseLoop : Nat → List Char → XmlSchema → PRes XmlSchema
  | 0, _, _ => .diverge
  | fuel + 1, s, sch =>
    match s with
    | [] => .ok sch []
    | c :: r =>
      if c = '<' then
        (parse_tag_name r).bind fun tag r2 =>
          if tag = ("xs:schema").data then
            let p1 := parse_optional_attr_value (("targetNamespace").data) r2
            let p2 := parse_optional_attr_value (("elementFormDefault").data) p1.2
            let p3 := parse_optional_attr_value (("attributeFormDefault").data) p2.2
            parseLoop fuel p3.2
              { sch with target_namespace := p1.1, element_form_default := p2.1,
                         attribute_form_default := p3.1 }
          else if tag = ("xs:element").data then
            (parse_element r2).bind fun e r3 =>
              parseLoop fuel r3 { sch with nodes := sch.nodes ++ [.Element e] }
          else if tag = ("xs:attribute").data then
            (parse_attribute r2).bind fun a r3 =>
              parseLoop fuel r3 { sch with nodes := sch.nodes ++ [.Attribute a] }
          else if tag = ("xs:simpleType").data then
            (parse_simple_type r2).bind fun st r3 =>
              parseLoop fuel r3 { sch with nodes := sch.nodes ++ [.SimpleType st] }
          else if tag = ("xs:complexType").data then
            (parse_complex_type r2).bind fun ctv r3 =>
              parseLoop fuel r3 { sch with nodes := sch.nodes ++ [.ComplexType ctv] }
          else .err (("Unexpected tag: ").data ++ tag)
      else parseLoop fuel r sch

/-- fn `parse`, lib.rs 156-202: run the dispatch loop on the whole input
with the empty schema. -/
def parse (s : List Char) : PRes XmlSchema :=
  parseLoop (s.length + 1) s
    { target_namespace := none, element_form_default := none,
      attribute_form_default := none, nodes := [] }

/-- Tag/name scanning: characters free of the two terminators are
accumulated; the terminator is consumed. -/
theorem tagNameLoop_stop (k : List Char) (hk : ∀ x ∈ k, x ≠ '>' ∧ x ≠ ' ')
    (c : Char) (hc : c = '>' ∨ c = ' ') (rest acc : List Char) :
    tagNameLoop acc (k ++ c :: rest) = (acc ++ k, rest) := by
  induction k generalizing acc with
  | nil => rcases hc with rfl | rfl <;> simp [tagNameLoop]
  | cons x k ih =>
      obtain ⟨hx1, hx2⟩ := hk x (by simp)
      simp only [List.cons_append, tagNameLoop, if_neg hx1, if_neg hx2, List.append_eq]
      rw [ih (fun y hy => hk y (by simp [hy]))]
      simp

/-- Tag/name scanning at end of input: everything is accumulated. -/
theorem tagNameLoop_eof (k : List Char) (hk : ∀ x ∈ k, x ≠ '>' ∧ x ≠ ' ')
    (acc : List Char) : tagNameLoop acc k = (acc ++ k, []) := by
  induction k generalizing acc with
  | nil => simp [tagNameLoop]
  | cons x k ih =>
      obtain ⟨hx1, hx2⟩ := hk x (by simp)
      simp only [tagNameLoop, if_neg hx1, if_neg hx2, List.append_eq]
      rw [ih (fun y hy => hk y (by simp [hy]))]
      simp

/-- `parse_tag_name` on a terminated token. -/
theorem ptn_stop (k : List Char) (hk : ∀ x ∈ k, x ≠ '>' ∧ x ≠ ' ')
    (c : Char) (hc : c = '>' ∨ c = ' ') (rest : List Char) :
    parse_tag_name (k ++ c :: rest) = .ok k rest := by
  unfold parse_tag_name
  rw [tagNameLoop_stop k hk c hc rest []]
  simp

/-- Quoted-value capture: everything up to the closing quote. -/
theorem attrQuoteLoop_run (v : List Char) (hv : ∀ x ∈ v, x ≠ '"')
    (rest acc : List Char) : attrQuoteLoop acc (v ++ '"' :: rest) = (acc ++ v, rest) := by
  induction v generalizing acc with
  | nil => simp [attrQuoteLoop]
  | cons x v ih =>
      have hx := hv x (by simp)
      simp only [List.cons_append, attrQuoteLoop, if_neg hx, List.append_eq]
      rw [ih (fun y hy => hv y (by simp [hy]))]
      simp

/-- Attribute-value scan, capture case: after characters free of the three
stop characters, a quoted value is captured (empty value gives `none`). -/
theorem attrValueLoop_capture (k : List Char)
    (hk : ∀ x ∈ k, x ≠ '>' ∧ x ≠ ' ' ∧ x ≠ '"')
    (v : List Char) (hv : ∀ x ∈ v, x ≠ '"') (rest : List Char) :
    attrValueLoop (k ++ '"' :: (v ++ '"' :: rest)) =
      (if v = [] then none else some v, rest) := by
  induction k with
  | nil =>
      simp only [List.nil_append, attrValueLoop, if_neg (by decide : ¬ ('"' = '>')),
        if_neg (by decide : ¬ ('"' = ' ')), if_pos rfl]
      rw [attrQuoteLoop_run v hv rest []]
      simp
  | cons x k ih =>
      obtain ⟨hx1, hx2, hx3⟩ := hk x (by simp)
      simp only [List.cons_append, attrValueLoop, if_neg hx1, if_neg hx2, if_neg hx3]
      exact ih (fun y hy => hk y (by simp [hy]))

/-- Attribute-value scan, stop case: a terminator with no preceding quote
gives `none`, consuming through the terminator. -/
theorem attrValueLoop_stop (k : List Char)
    (hk : ∀ x ∈ k, x ≠ '>' ∧ x ≠ ' ' ∧ x ≠ '"')
    (c : Char) (hc : c = '>' ∨ c = ' ') (rest : List Char) :
    attrValueLoop (k ++ c :: rest) = (none, rest) := by
  induction k with
  | nil => rcases hc with rfl | rfl <;> simp [attrValueLoop]
  | cons x k ih =>
      obtain ⟨hx1, hx2, hx3⟩ := hk x (by simp)
      simp only [List.cons_append, attrValueLoop, if_neg hx1, if_neg hx2, if_neg hx3]
      exact ih (fun y hy => hk y (by simp [hy]))

/-- Attribute-value scan, end of input: `none`. -/
theorem attrValueLoop_eof (k : List Char)
    (hk : ∀ x ∈ k, x ≠ '>' ∧ x ≠ ' ' ∧ x ≠ '"') :
    attrValueLoop k = (none, []) := by
  induction k with
  | nil => simp [attrValueLoop]
  | cons x k ih =>
      obtain ⟨hx1, hx2, hx3⟩ := hk x (by simp)
      simp only [attrValueLoop, if_neg hx1, if_neg hx2, if_neg hx3]
      exact ih (fun y hy => hk y (by simp [hy]))

/-- Skip-to-`>`: characters free of `>` are discarded, the `>` consumed. -/
theorem skipToGt_run (k : List Char) (hk : ∀ x ∈ k, x ≠ '>') (rest : List Char) :
    skipToGt (k ++ '>' :: rest) = rest := by
  induction k with
  | nil => simp [skipToGt]
  | cons x k ih =>
      have hx := hk x (by simp)
      simp only [List.cons_append, skipToGt, if_neg hx]
      exact ih (fun y hy => hk y (by simp [hy]))

/-- The dispatch loop skips any run of non-`<` characters. -/
theorem parseLoop_skip (p : List Char) (hp : ∀ x ∈ p, x ≠ '<') :
    ∀ (fuel : Nat) (s : List Char) (sch : XmlSchema), p.length ≤ fuel →
      parseLoop fuel (p ++ s) sch = parseLoop (fuel - p.length) s sch := by
  induction p with
  | nil => intro fuel s sch _; simp
  | cons x p ih =>
      intro fuel s sch hf
      have hx := hp x (by simp)
      cases fuel with
      | zero => simp at hf
      | succ f =>
          simp only [List.cons_append, parseLoop, if_neg hx]
          rw [ih (fun y hy => hp y (by simp [hy])) f s sch (by simpa using hf)]
          simp [Nat.succ_sub_succ]

/-- The dispatch loop consumes a single non-`<` character. -/
theorem parseLoop_nonlt (fuel : Nat) (hf : 1 ≤ fuel) (c : Char) (hc : c ≠ '<')
    (r : List Char) (sch : XmlSchema) :
    parseLoop fuel (c :: r) sch = parseLoop (fuel - 1) r sch := by
  cases fuel with
  | zero => simp at hf
  | succ f => simp [parseLoop, if_neg hc]

/-- The dispatch loop at end of input returns the accumulated schema. -/
theorem parseLoop_nil (fuel : Nat) (hf : 1 ≤ fuel) (sch : XmlSchema) :
    parseLoop fuel [] sch = .ok sch [] := by
  cases fuel with
  | zero => simp at hf
  | succ f => simp [parseLoop]

/-- Dispatch on an unrecognized tag is the `Unexpected tag` error. -/
theorem parseLoop_unknown_tag (fuel : Nat) (hf : 1 ≤ fuel)
    (t rest : List Char) (sch : XmlSchema)
    (ht : ∀ x ∈ t, x ≠ '>' ∧ x ≠ ' ')
    (h1 : t ≠ ("xs:schema").data) (h2 : t ≠ ("xs:element").data)
    (h3 : t ≠ ("xs:attribute").data) (h4 : t ≠ ("xs:simpleType").data)
    (h5 : t ≠ ("xs:complexType").data) :
    parseLoop fuel ('<' :: (t ++ '>' :: rest)) sch =
      .err (("Unexpected tag: ").data ++ t) := by
  cases fuel with
  | zero => simp at hf
  | succ f =>
      simp [parseLoop, ptn_stop t ht '>' (Or.inl rfl) rest,
        PRes.bind, if_neg h1, if_neg h2, if_neg h3, if_neg h4, if_neg h5]

/-- Dispatch step for an `xs:schema` tag: the three positional
optional-attribute scans run in sequence and the loop continues. -/
theorem parseLoop_schema_tag (fuel : Nat) (hf : 1 ≤ fuel)
    (s r2 : List Char) (sch : XmlSchema)
    (htag : parse_tag_name s = .ok (("xs:schema").data) r2) :
    parseLoop fuel ('<' :: s) sch =
      parseLoop (fuel - 1)
        (parse_optional_attr_value (("attributeFormDefault").data)
          (parse_optional_attr_value (("elementFormDefault").data)
            (parse_optional_attr_value (("targetNamespace").data) r2).2).2).2
        { sch with
          target_namespace :=
            (parse_optional_attr_value (("targetNamespace").data) r2).1,
          element_form_default :=
            (parse_optional_attr_value (("elementFormDefault").data)
              (parse_optional_attr_value (("targetNamespace").data) r2).2).1,
          attribute_form_default :=
            (parse_optional_attr_value (("attributeFormDefault").data)
              (parse_optional_attr_value (("elementFormDefault").data)
                (parse_optional_attr_value (("targetNamespace").data) r2).2).2).1 } := by
  cases fuel with
  | zero => simp at hf
  | succ f => simp [parseLoop, htag, PRes.bind]

/-- Dispatch step for an `xs:element` tag. -/
theorem parseLoop_element_tag (fuel : Nat) (hf : 1 ≤ fuel)
    (s r2 r3 : List Char) (sch : XmlSchema) (e : Element)
    (htag : parse_tag_name s = .ok (("xs:element").data) r2)
    (he : parse_element r2 = .ok e r3) :
    parseLoop fuel ('<' :: s) sch =
      parseLoop (fuel - 1) r3 { sch with nodes := sch.nodes ++ [.Element e] } := by
  cases fuel with
  | zero => simp at hf
  | succ f =>
      simp [parseLoop, htag, PRes.bind, he]

/-- Dispatch step for an `xs:complexType` tag. -/
theorem parseLoop_ctype_tag (fuel : Nat) (hf : 1 ≤ fuel)
    (s r2 r3 : List Char) (sch : XmlSchema) (ctv : ComplexType)
    (htag : parse_tag_name s = .ok (("xs:complexType").data) r2)
    (hc : parse_complex_type r2 = .ok ctv r3) :
    parseLoop fuel ('<' :: s) sch =
      parseLoop (fuel - 1) r3 { sch with nodes := sch.nodes ++ [.ComplexType ctv] } := by
  cases fuel with
  | zero => simp at hf
  | succ f =>
      simp [parseLoop, htag, PRes.bind, hc]

/-- Child-loop step of `parse_complex_type` at end of input. -/
theorem ctContentLoop_nil (fuel : Nat) (hf : 1 ≤ fuel) (ct : ComplexType) :
    ctContentLoop fuel [] ct = .ok ct [] := by
  cases fuel with
  | zero => simp at hf
  | succ f => simp [ctContentLoop]

/-- Child-loop step for an `xs:sequence` child tag. -/
theorem ctContentLoop_seq_tag (fuel : Nat) (hf : 1 ≤ fuel)
    (s r2 : List Char) (ct : ComplexType)
    (htag : parse_tag_name s = .ok (("xs:sequence").data) r2) :
    ctContentLoop fuel ('<' :: s) ct =
      ctContentLoop (fuel - 1) r2 { ct with content := .Sequence } := by
  cases fuel with
  | zero => simp at hf
  | succ f =>
      simp [ctContentLoop, htag, PRes.bind]

/-- Child-loop step for an `xs:complexType` self-tag carrying
`mixed="true"`: content becomes `MixedContent`, the rest of the tag up to
`>` is skipped, and the loop exits successfully. -/
theorem ctContentLoop_selfmixed_tag (fuel : Nat) (hf : 1 ≤ fuel)
    (s r2 : List Char) (ct : ComplexType)
    (htag : parse_tag_name s = .ok (("xs:complexType").data) r2)
    (hmix : (parse_optional_attr_value (("mixed").data) r2).1 = some (("true").data)) :
    ctContentLoop fuel ('<' :: s) ct =
      .ok { ct with content := .MixedContent }
        (skipToGt (parse_optional_attr_value (("mixed").data) r2).2) := by
  cases fuel with
  | zero => simp at hf
  | succ f =>
      simp [ctContentLoop, htag, PRes.bind, hmix]

/-- The keyword test of the detection loop is dead code: the compared
slice begins with the matched `s`, while the literal begins with `t`. -/
theorem slice_never_type (r : List Char) : 's' :: r.take 3 ≠ ("type").data := by
  intro h
  exact absurd (List.head_eq_of_cons_eq h) (by decide)

/-- C1: the spec requires the `<xs:simpleType name="X"><xs:restriction
base="xs:integer">` document to produce datatype `Integer`; because the
keyword test above never fires, the code leaves the initial `String`. -/
theorem c1_integer_detection_dead :
    parse (("<xs:simpleType name=\"X\"><xs:restriction base=\"xs:integer\">").data) =
      .ok { target_namespace := none, element_form_default := none,
            attribute_form_default := none,
            nodes := [.SimpleType { name := ("name=\"X\"").data,
                                    datatype := .String }] } []
    ∧ SimpleDatatype.String ≠ SimpleDatatype.Integer := by
  exact ⟨by decide, by decide⟩

/-- C3: the claim says no input can make the parser panic, but on this
19-character document the detection loop reads the `s` at index 18 and
slices `input[18..22]`, out of bounds — a Rust panic. -/
theorem c3_slice_out_of_bounds :
    parse (("<xs:simpleType a><s").data) = .crash := by decide

/-- C2 counterexample: with `elementFormDefault` the only attribute
present, its quoted value is captured into `target_namespace` (first
scanner call) and `element_form_default` stays `none`, contrary to the
claim that each textually present attribute reaches its own field. -/
theorem c2_counterexample :
    parse (("<xs:schema elementFormDefault=\"q\">").data) =
      .ok { target_namespace := some (("q").data), element_form_default := none,
            attribute_form_default := none, nodes := [] } []
    ∧ (XmlSchema.element_form_default
        { target_namespace := some (("q").data), element_form_default := none,
          attribute_form_default := none, nodes := [] }) ≠ some (("q").data) := by
  exact ⟨by decide, by decide⟩

/-- C4 counterexample: for `<xs:element name="Foo">` the element's `name`
field is the raw token `name="Foo"`, not the declared name `Foo`. -/
theorem c4_counterexample :
    parse (("<xs:element name=\"Foo\">").data) =
      .ok { target_namespace := none, element_form_default := none,
            attribute_form_default := none,
            nodes := [.Element { name := ("name=\"Foo\"").data,
                                 datatype := .SimpleType [],
                                 max_occurs := 1, min_occurs := 1 }] } []
    ∧ Element.name { name := ("name=\"Foo\"").data, datatype := .SimpleType [],
                     max_occurs := 1, min_occurs := 1 } ≠ ("Foo").data := by
  exact ⟨by decide, by decide⟩

/-- C5 counterexample: a `mixed="true"` attribute on the outer
`<xs:complexType name="C" ...>` tag is read by the child loop as a stray
`m` character, so the parse fails instead of yielding `MixedContent`. -/
theorem c5_counterexample :
    parse (("<xs:complexType name=\"C\" mixed=\"true\">").data) =
      .err (("Unexpected character: m").data) := by decide

/-- C6 counterexample: on the claimed document form the child loop reads
the closing tag as a tag named `/xs:sequence` and aborts, so no
`ComplexType` with content `Sequence` is produced. -/
theorem c6_counterexample :
    parse (("<xs:complexType name=\"C\"><xs:sequence></xs:sequence></xs:complexType>").data) =
      .err (("Unexpected tag: /xs:sequence").data) := by decide

/-- C4 amended: the element parser keeps the raw token between the space
and the terminator as the name — for `<xs:element name="Foo">` the name
field is the literal text `name="Foo"`, not `Foo`; occurrence bounds
default to 1/1 and the datatype to an empty simple-type reference. -/
theorem c4_amended (r : List Char) (hr : ∀ x ∈ r, x ≠ '>' ∧ x ≠ ' ') :
    parse ((("<xs:element ").data ++ r) ++ ((">").data)) =
      .ok { target_namespace := none, element_form_default := none,
            attribute_form_default := none,
            nodes := [.Element { name := r, datatype := .SimpleType [],
                                 max_occurs := 1, min_occurs := 1 }] } [] := by
  have hdoc : (("<xs:element ").data ++ r) ++ ((">").data)
      = '<' :: (("xs:element").data ++ ' ' :: (r ++ '>' :: [])) := by
    have h1 : ("<xs:element ").data = '<' :: (("xs:element").data ++ [' ']) := by decide
    rw [h1]; simp
  have htag : parse_tag_name (("xs:element").data ++ ' ' :: (r ++ '>' :: []))
      = .ok (("xs:element").data) (r ++ '>' :: []) :=
    ptn_stop _ (by decide) ' ' (Or.inr rfl) _
  have he : parse_element (r ++ '>' :: []) =
      .ok { name := r, datatype := .SimpleType [], max_occurs := 1, min_occurs := 1 } [] := by
    unfold parse_element
    rw [tagNameLoop_stop r hr '>' (Or.inl rfl) [] []]
    simp [skipGtSp]
  rw [hdoc]
  unfold parse
  rw [parseLoop_element_tag _ (by omega) _ _ _ _ _ htag he]
  rw [parseLoop_nil _ (by simp) _]
  simp

/-- C8 counterexample: a document can contain a root-level tag outside
the five recognized kinds and still parse successfully: after
`<xs:schema>` the three positional attribute scans swallow the text of
`<xs:import a="b">` (its quoted value even lands in
`element_form_default`), so the unrecognized tag is silently skipped
rather than failing the parse. -/
theorem c8_counterexample :
    parse (("<xs:schema><xs:import a=\"b\">").data) =
      .ok { target_namespace := none, element_form_default := some (("b").data),
            attribute_form_default := none, nodes := [] } [] := by decide

/-- C8 amended: any document whose first tag — the one the dispatch loop
actually reads, after ignorable non-`<` characters — has a name outside
the five recognized root kinds makes the whole parse return the
`Unexpected tag` error, whatever follows; a root-level tag lying inside
the span consumed by a preceding construct's scanners is instead
swallowed (see the counterexample). -/
theorem c8_unknown_root_tag (p t rest : List Char)
    (hp : ∀ x ∈ p, x ≠ '<') (ht : ∀ x ∈ t, x ≠ '>' ∧ x ≠ ' ')
    (hrec : t ∉ [("xs:schema").data, ("xs:element").data, ("xs:attribute").data,
                 ("xs:simpleType").data, ("xs:complexType").data]) :
    parse (p ++ '<' :: (t ++ '>' :: rest)) =
      .err (("Unexpected tag: ").data ++ t) := by
  simp only [List.mem_cons, List.not_mem_nil, or_false, not_or] at hrec
  obtain ⟨h1, h2, h3, h4, h5⟩ := hrec
  unfold parse
  rw [parseLoop_skip p hp _ _ _ (by simp [List.length_append]; omega)]
  exact parseLoop_unknown_tag _ (by simp [List.length_append]; omega)
    t rest _ ht h1 h2 h3 h4 h5

/-- C6 amended: the `xs:sequence` child tag sets the content-model tag to
`Sequence` and the name field is the raw token after the space, but the
document must stop right after `<xs:sequence>`: the original document's
closing tags are read as an unexpected tag (see the counterexample).  The
schema node list holds exactly the one ComplexType and no child particles
(the record has no particle list at all). -/
theorem c6_amended (w : List Char) (hw : ∀ x ∈ w, x ≠ '>' ∧ x ≠ ' ') :
    parse ((("<xs:complexType ").data ++ w) ++ (("><xs:sequence>").data)) =
      .ok { target_namespace := none, element_form_default := none,
            attribute_form_default := none,
            nodes := [.ComplexType { name := w, base_type := none, attributes := [],
                                     content := .Sequence, mixed_content := none }] } [] := by
  have hdoc : (("<xs:complexType ").data ++ w) ++ (("><xs:sequence>").data)
      = '<' :: (("xs:complexType").data ++ ' ' ::
          (w ++ '>' :: ('<' :: (("xs:sequence").data ++ '>' :: [])))) := by
    have h1 : ("<xs:complexType ").data
        = '<' :: (("xs:complexType").data ++ [' ']) := by decide
    have h2 : ("><xs:sequence>").data
        = '>' :: ('<' :: (("xs:sequence").data ++ '>' :: [])) := by decide
    rw [h1, h2]; simp
  have htag : parse_tag_name (("xs:complexType").data ++ ' ' ::
        (w ++ '>' :: ('<' :: (("xs:sequence").data ++ '>' :: []))))
      = .ok (("xs:complexType").data)
          (w ++ '>' :: ('<' :: (("xs:sequence").data ++ '>' :: []))) :=
    ptn_stop _ (by decide) ' ' (Or.inr rfl) _
  have htag2 : parse_tag_name (("xs:sequence").data ++ '>' :: [])
      = .ok (("xs:sequence").data) [] :=
    ptn_stop _ (by decide) '>' (Or.inl rfl) _
  have hct : parse_complex_type
        (w ++ '>' :: ('<' :: (("xs:sequence").data ++ '>' :: [])))
      = .ok { name := w, base_type := none, attributes := [],
              content := .Sequence, mixed_content := none } [] := by
    unfold parse_complex_type
    rw [tagNameLoop_stop w hw '>' (Or.inl rfl) _ []]
    rw [ctContentLoop_seq_tag _ (by simp) _ _ _ htag2]
    rw [ctContentLoop_nil _ (by simp) _]
    simp
  rw [hdoc]
  unfold parse
  rw [parseLoop_ctype_tag _ (by omega) _ _ _ _ _ htag hct]
  rw [parseLoop_nil _ (by simp) _]
  simp

/-- C5 amended: the `mixed="true"` marker is honored only when the child
loop meets an `xs:complexType` self-tag carrying it, i.e. on documents
`<xs:complexType name="C"><xs:complexType mixed="true"...>`; there the
content-model tag becomes MixedContent and the remainder of the tag up to
its closing `>` is skipped without error, whatever it contains.  (With the
attribute on the outer tag, as the claim literally reads, the parse fails
with an Unexpected-character error: see the counterexample.) -/
theorem c5_amended (g : List Char) (hg : ∀ x ∈ g, x ≠ '>') :
    parse ((("<xs:complexType name=\"C\"><xs:complexType mixed=\"true\"").data ++ g)
        ++ ((">").data)) =
      .ok { target_namespace := none, element_form_default := none,
            attribute_form_default := none,
            nodes := [.ComplexType { name := ("name=\"C\"").data, base_type := none,
                                     attributes := [], content := .MixedContent,
                                     mixed_content := none }] } [] := by
  have hdoc : (("<xs:complexType name=\"C\"><xs:complexType mixed=\"true\"").data ++ g)
        ++ ((">").data)
      = '<' :: (("xs:complexType").data ++ ' ' ::
          (("name=\"C\"").data ++ '>' :: ('<' :: (("xs:complexType").data ++ ' ' ::
            (("mixed=").data ++ '"' :: (("true").data ++ '"' :: (g ++ '>' :: []))))))) := by
    have h1 : ("<xs:complexType name=\"C\"><xs:complexType mixed=\"true\"").data
        = '<' :: (("xs:complexType").data ++ ' ' ::
            (("name=\"C\"").data ++ '>' :: ('<' :: (("xs:complexType").data ++ ' ' ::
              (("mixed=").data ++ '"' :: (("true").data ++ ['"'])))))) := by decide
    rw [h1]; simp
  have htag : parse_tag_name (("xs:complexType").data ++ ' ' ::
        (("name=\"C\"").data ++ '>' :: ('<' :: (("xs:complexType").data ++ ' ' ::
          (("mixed=").data ++ '"' :: (("true").data ++ '"' :: (g ++ '>' :: [])))))))
      = .ok (("xs:complexType").data)
          (("name=\"C\"").data ++ '>' :: ('<' :: (("xs:complexType").data ++ ' ' ::
            (("mixed=").data ++ '"' :: (("true").data ++ '"' :: (g ++ '>' :: [])))))) :=
    ptn_stop _ (by decide) ' ' (Or.inr rfl) _
  have htag2 : parse_tag_name (("xs:complexType").data ++ ' ' ::
        (("mixed=").data ++ '"' :: (("true").data ++ '"' :: (g ++ '>' :: []))))
      = .ok (("xs:complexType").data)
          (("mixed=").data ++ '"' :: (("true").data ++ '"' :: (g ++ '>' :: []))) :=
    ptn_stop _ (by decide) ' ' (Or.inr rfl) _
  have hpaov : parse_optional_attr_value (("mixed").data)
        (("mixed=").data ++ '"' :: (("true").data ++ '"' :: (g ++ '>' :: [])))
      = (some (("true").data), g ++ '>' :: []) := by
    unfold parse_optional_attr_value
    rw [attrValueLoop_capture _ (by decide) _ (by decide) _]
    simp
  have hct : parse_complex_type
        (("name=\"C\"").data ++ '>' :: ('<' :: (("xs:complexType").data ++ ' ' ::
          (("mixed=").data ++ '"' :: (("true").data ++ '"' :: (g ++ '>' :: []))))))
      = .ok { name := ("name=\"C\"").data, base_type := none, attributes := [],
              content := .MixedContent, mixed_content := none } [] := by
    unfold parse_complex_type
    rw [tagNameLoop_stop _ (by decide) '>' (Or.inl rfl) _ []]
    rw [ctContentLoop_selfmixed_tag _ (by simp) _ _ _ htag2 (by rw [hpaov])]
    rw [hpaov]
    simp [skipToGt_run g hg []]
  rw [hdoc]
  unfold parse
  rw [parseLoop_ctype_tag _ (by omega) _ _ _ _ _ htag hct]
  rw [parseLoop_nil _ (by simp) _]
  simp

/-- C2 amended: the three root-attribute scans are positional, not keyed,
and an empty captured value is recorded as absent.  Provided every present
attribute carries a nonempty quoted value free of `"`, the claimed field
correspondence holds exactly for the attribute subsets `{}`,
`{targetNamespace}` and `{targetNamespace, attributeFormDefault}`
(`target_namespace` taking the first value present and
`attribute_form_default` the second, `element_form_default` never being
populated from a lone opening tag); values are misattributed for the other
subsets (see the counterexample), and an empty quoted value is dropped
even in the good subsets — `<xs:schema targetNamespace="">` leaves every
field absent (second conjunct). -/
theorem c2_amended :
    (parse (("<xs:schema>").data) =
      .ok { target_namespace := none, element_form_default := none,
            attribute_form_default := none, nodes := [] } [])
    ∧ (parse (("<xs:schema targetNamespace=\"\">").data) =
      .ok { target_namespace := none, element_form_default := none,
            attribute_form_default := none, nodes := [] } [])
    ∧ (∀ v1, v1 ≠ [] → (∀ x ∈ v1, x ≠ '"') →
        parse ((("<xs:schema targetNamespace=\"").data ++ v1) ++ (("\">").data)) =
          .ok { target_namespace := some v1, element_form_default := none,
                attribute_form_default := none, nodes := [] } [])
    ∧ (∀ v1 v3, v1 ≠ [] → v3 ≠ [] → (∀ x ∈ v1, x ≠ '"') → (∀ x ∈ v3, x ≠ '"') →
        parse ((((("<xs:schema targetNamespace=\"").data ++ v1) ++
            (("\" attributeFormDefault=\"").data)) ++ v3) ++ (("\">").data)) =
          .ok { target_namespace := some v1, element_form_default := none,
                attribute_form_default := some v3, nodes := [] } []) := by
  refine ⟨by decide, by decide, ?_, ?_⟩
  · intro v1 hne hv1
    have hdoc : (("<xs:schema targetNamespace=\"").data ++ v1) ++ (("\">").data)
        = '<' :: (("xs:schema").data ++ ' ' ::
            (("targetNamespace=").data ++ '"' :: (v1 ++ '"' :: ('>' :: [])))) := by
      have h1 : ("<xs:schema targetNamespace=\"").data
          = '<' :: (("xs:schema").data ++ ' ' :: (("targetNamespace=").data ++ ['"'])) := by
        decide
      have h2 : ("\">").data = '"' :: ('>' :: []) := by decide
      rw [h1, h2]; simp
    have htag : parse_tag_name (("xs:schema").data ++ ' ' ::
          (("targetNamespace=").data ++ '"' :: (v1 ++ '"' :: ('>' :: []))))
        = .ok (("xs:schema").data)
            (("targetNamespace=").data ++ '"' :: (v1 ++ '"' :: ('>' :: []))) :=
      ptn_stop _ (by decide) ' ' (Or.inr rfl) _
    have h1 : parse_optional_attr_value (("targetNamespace").data)
          (("targetNamespace=").data ++ '"' :: (v1 ++ '"' :: ('>' :: [])))
        = (some v1, '>' :: []) := by
      unfold parse_optional_attr_value
      rw [attrValueLoop_capture _ (by decide) _ hv1 _]
      simp [hne]
    rw [hdoc]
    unfold parse
    rw [parseLoop_schema_tag _ (by omega) _ _ _ htag]
    rw [h1]
    simp only [Prod.fst, Prod.snd]
    have h2 : parse_optional_attr_value (("elementFormDefault").data) ('>' :: [])
        = (none, []) := by decide
    rw [h2]
    have h3 : parse_optional_attr_value (("attributeFormDefault").data) ([] : List Char)
        = (none, []) := by decide
    rw [h3]
    rw [parseLoop_nil _ (by simp) _]
  · intro v1 v3 hne1 hne3 hv1 hv3
    have hdoc : (((("<xs:schema targetNamespace=\"").data ++ v1) ++
          (("\" attributeFormDefault=\"").data)) ++ v3) ++ (("\">").data)
        = '<' :: (("xs:schema").data ++ ' ' ::
            (("targetNamespace=").data ++ '"' :: (v1 ++ '"' :: (' ' ::
              (("attributeFormDefault=").data ++ '"' :: (v3 ++ '"' :: ('>' :: []))))))) := by
      have h1 : ("<xs:schema targetNamespace=\"").data
          = '<' :: (("xs:schema").data ++ ' ' :: (("targetNamespace=").data ++ ['"'])) := by
        decide
      have h2 : ("\" attributeFormDefault=\"").data
          = '"' :: (' ' :: (("attributeFormDefault=").data ++ ['"'])) := by decide
      have h3 : ("\">").data = '"' :: ('>' :: []) := by decide
      rw [h1, h2, h3]; simp
    have htag : parse_tag_name (("xs:schema").data ++ ' ' ::
          (("targetNamespace=").data ++ '"' :: (v1 ++ '"' :: (' ' ::
            (("attributeFormDefault=").data ++ '"' :: (v3 ++ '"' :: ('>' :: [])))))))
        = .ok (("xs:schema").data)
            (("targetNamespace=").data ++ '"' :: (v1 ++ '"' :: (' ' ::
              (("attributeFormDefault=").data ++ '"' :: (v3 ++ '"' :: ('>' :: [])))))) :=
      ptn_stop _ (by decide) ' ' (Or.inr rfl) _
    have h1 : parse_optional_attr_value (("targetNamespace").data)
          (("targetNamespace=").data ++ '"' :: (v1 ++ '"' :: (' ' ::
            (("attributeFormDefault=").data ++ '"' :: (v3 ++ '"' :: ('>' :: []))))))
        = (some v1, ' ' :: (("attributeFormDefault=").data ++ '"' ::
            (v3 ++ '"' :: ('>' :: [])))) := by
      unfold parse_optional_attr_value
      rw [attrValueLoop_capture _ (by decide) _ hv1 _]
      simp [hne1]
    have h2 : parse_optional_attr_value (("elementFormDefault").data)
          (' ' :: (("attributeFormDefault=").data ++ '"' :: (v3 ++ '"' :: ('>' :: []))))
        = (none, ("attributeFormDefault=").data ++ '"' :: (v3 ++ '"' :: ('>' :: []))) := by
      unfold parse_optional_attr_value
      exact attrValueLoop_stop [] (by simp) ' ' (Or.inr rfl) _
    have h3 : parse_optional_attr_value (("attributeFormDefault").data)
          (("attributeFormDefault=").data ++ '"' :: (v3 ++ '"' :: ('>' :: [])))
        = (some v3, '>' :: []) := by
      unfold parse_optional_attr_value
      rw [attrValueLoop_capture _ (by decide) _ hv3 _]
      simp [hne3]
    rw [hdoc]
    unfold parse
    rw [parseLoop_schema_tag _ (by omega) _ _ _ htag]
    rw [h1]
    simp only [Prod.fst, Prod.snd]
    rw [h2]
    simp only [Prod.fst, Prod.snd]
    rw [h3]
    simp only [Prod.fst, Prod.snd]
    rw [parseLoop_nonlt _ (by simp) '>' (by decide) _ _]
    rw [parseLoop_nil _ (by simp) _]

/-- C7: rendering any of the six scalar datatypes through its canonical
lowercase form and re-reading that text with the datatype-name scanner and
the six-way scalar match of the detection algorithm reproduces the same
enumeration member. -/
theorem c7_render_roundtrip (d : SimpleDatatype) :
    parse_datatype_name (SimpleDatatype.render d) = .ok (SimpleDatatype.render d) []
    ∧ scalarOfName (SimpleDatatype.render d) = some d := by
  cases d <;> exact ⟨by decide, by decide⟩

/-- C9: the attribute-value scanner's result and final cursor are
independent of the attribute-name argument (the source never reads it);
it captures the next quoted value encountered, and returns `none` when a
terminating `>` or space arrives with no quote before it. -/
theorem c9_attr_name_ignored (n1 n2 s : List Char) :
    parse_optional_attr_value n1 s = parse_optional_attr_value n2 s
    ∧ (∀ k v rest, s = k ++ '"' :: (v ++ '"' :: rest) →
        (∀ x ∈ k, x ≠ '>' ∧ x ≠ ' ' ∧ x ≠ '"') → (∀ x ∈ v, x ≠ '"') →
        parse_optional_attr_value n1 s = (if v = [] then none else some v, rest))
    ∧ (∀ k c rest, s = k ++ c :: rest →
        (∀ x ∈ k, x ≠ '>' ∧ x ≠ ' ' ∧ x ≠ '"') → (c = '>' ∨ c = ' ') →
        parse_optional_attr_value n1 s = (none, rest)) := by
  refine ⟨rfl, ?_, ?_⟩
  · intro k v rest hs hk hv
    subst hs
    exact attrValueLoop_capture k hk v hv rest
  · intro k c rest hs hk hc
    subst hs
    exact attrValueLoop_stop k hk c hc rest

/-- Witness for C9 at a concrete state: the two differently-named calls
agree, and the captured value is the next quoted one. -/
theorem c9_attr_name_ignored_witness :
    parse_optional_attr_value (("targetNamespace").data) (("x=\"v\">").data)
      = parse_optional_attr_value (("elementFormDefault").data) (("x=\"v\">").data)
    ∧ parse_optional_attr_value (("targetNamespace").data) (("x=\"v\">").data)
      = (some (("v").data), '>' :: []) := by
  refine ⟨(c9_attr_name_ignored (("targetNamespace").data)
    (("elementFormDefault").data) (("x=\"v\">").data)).1, ?_⟩
  have h := (c9_attr_name_ignored (("targetNamespace").data)
    (("elementFormDefault").data) (("x=\"v\">").data)).2.1
    (("x=").data) (("v").data) ('>' :: []) (by decide) (by decide) (by decide)
  simpa using h

/-- The child loop of `parse_complex_type` only ever updates the `content`
field of the record it threads: `base_type`, `attributes`, `mixed_content`
(and `name`) of a successful result are those of the record at entry. -/
theorem ctContentLoop_inv (fuel : Nat) :
    ∀ (s : List Char) (ct ct' : ComplexType) (r' : List Char),
      ctContentLoop fuel s ct = .ok ct' r' →
      ct'.name = ct.name ∧ ct'.base_type = ct.base_type ∧
      ct'.attributes = ct.attributes ∧ ct'.mixed_content = ct.mixed_content := by
  induction fuel with
  | zero => intro s ct ct' r' h; simp [ctContentLoop] at h
  | succ f ih =>
      intro s ct ct' r' h
      match s with
      | [] =>
          simp only [ctContentLoop, PRes.ok.injEq] at h
          obtain ⟨rfl, rfl⟩ := h
          exact ⟨rfl, rfl, rfl, rfl⟩
      | c :: r =>
          simp only [ctContentLoop, parse_tag_name, PRes.bind] at h
          by_cases hlt : c = '<'
          · rw [if_pos hlt] at h
            repeat' split at h
            all_goals
              first
                | (have hx := ih _ _ _ _ h
                   exact hx)
                | (obtain ⟨h1, h2⟩ := PRes.ok.inj h
                   subst h1
                   exact ⟨rfl, rfl, rfl, rfl⟩)
                | simp at h
          · rw [if_neg hlt] at h
            by_cases hsp : c = ' '
            · rw [if_pos hsp] at h
              exact ih _ _ _ _ h
            · rw [if_neg hsp] at h
              by_cases hgt : c = '>'
              · rw [if_pos hgt] at h
                obtain ⟨rfl, rfl⟩ := PRes.ok.inj h
                exact ⟨rfl, rfl, rfl, rfl⟩
              · rw [if_neg hgt] at h
                exact absurd h (by simp)

/-- C10: every `ComplexType` successfully returned by `parse_complex_type`
has `base_type = none`, an empty attribute map and `mixed_content = none`;
only the name and content fields are ever populated from input. -/
theorem c10_complex_type_defaults (s : List Char) (ct' : ComplexType)
    (r' : List Char) (h : parse_complex_type s = .ok ct' r') :
    ct'.base_type = none ∧ ct'.attributes = [] ∧ ct'.mixed_content = none := by
  unfold parse_complex_type at h
  have := ctContentLoop_inv _ _ _ _ _ h
  simp only at this
  exact ⟨this.2.1, this.2.2.1, this.2.2.2⟩

/-- The concrete `ComplexType` produced by `parse_complex_type` on the
witness input of C10. -/
def c10WitnessCT : ComplexType :=
  { name := ("C").data, base_type := none, attributes := [],
    content := .Sequence, mixed_content := none }

/-- Witness for C10 at a concrete successful parse. -/
theorem c10_complex_type_defaults_witness :
    c10WitnessCT.base_type = none ∧ c10WitnessCT.attributes = [] ∧
      c10WitnessCT.mixed_content = none :=
  c10_complex_type_defaults (("C><xs:sequence>").data) c10WitnessCT [] (by decide)

/-- Witness for C2 amended at concrete values. -/
theorem c2_amended_witness :
    parse ((("<xs:schema targetNamespace=\"").data ++ ("n").data) ++ (("\">").data)) =
      .ok { target_namespace := some (("n").data), element_form_default := none,
            attribute_form_default := none, nodes := [] } []
    ∧ parse ((((("<xs:schema targetNamespace=\"").data ++ ("n").data) ++
          (("\" attributeFormDefault=\"").data)) ++ ("u").data) ++ (("\">").data)) =
        .ok { target_namespace := some (("n").data), element_form_default := none,
              attribute_form_default := some (("u").data), nodes := [] } [] :=
  ⟨c2_amended.2.2.1 (("n").data) (by decide) (by decide),
   c2_amended.2.2.2 (("n").data) (("u").data) (by decide) (by decide) (by decide) (by decide)⟩

/-- Witness for C4 amended at the claim's own document. -/
theorem c4_amended_witness :
    parse ((("<xs:element ").data ++ (("name=\"Foo\"").data)) ++ ((">").data)) =
      .ok { target_namespace := none, element_form_default := none,
            attribute_form_default := none,
            nodes := [.Element { name := ("name=\"Foo\"").data,
                                 datatype := .SimpleType [],
                                 max_occurs := 1, min_occurs := 1 }] } [] :=
  c4_amended (("name=\"Foo\"").data) (by decide)

/-- Witness for C5 amended with concrete skipped content. -/
theorem c5_amended_witness :
    parse ((("<xs:complexType name=\"C\"><xs:complexType mixed=\"true\"").data ++
        ((" junk=\"1\"").data)) ++ ((">").data)) =
      .ok { target_namespace := none, element_form_default := none,
            attribute_form_default := none,
            nodes := [.ComplexType { name := ("name=\"C\"").data, base_type := none,
                                     attributes := [], content := .MixedContent,
                                     mixed_content := none }] } [] :=
  c5_amended ((" junk=\"1\"").data) (by decide)

/-- Witness for C6 amended at the claim's own name token. -/
theorem c6_amended_witness :
    parse ((("<xs:complexType ").data ++ (("name=\"C\"").data)) ++
        (("><xs:sequence>").data)) =
      .ok { target_namespace := none, element_form_default := none,
            attribute_form_default := none,
            nodes := [.ComplexType { name := ("name=\"C\"").data, base_type := none,
                                     attributes := [], content := .Sequence,
                                     mixed_content := none }] } [] :=
  c6_amended (("name=\"C\"").data) (by decide)

/-- Witness for C8 at a concrete unrecognized root tag. -/
theorem c8_unknown_root_tag_witness :
    parse ((("z").data) ++ '<' :: ((("xs:import").data) ++ '>' :: (("xy").data))) =
      .err ((("Unexpected tag: ").data) ++ (("xs:import").data)) :=
  c8_unknown_root_tag (("z").data) (("xs:import").data) (("xy").data)
    (by decide) (by decide) (by decide)

end Xsd
